import Mathlib

/-!
Verification of the containerized script runner of the
aquainfra-usecase-elbe repository (src/ogc/*.py).

The processors are straight-line Python: each `execute` reads a JSON
config, validates the presence of its inputs, shells out to the container
engine through a `run_docker_container` helper, and renders the outcome.
The embedding below models:

* Python string operations (`split`, `startswith`, `rstrip`, slicing) as
  executable functions over `String.data`, so that concrete runs evaluate
  inside the kernel;
* the host filesystem as a predicate saying which directories exist, with
  `os.makedirs(path, exist_ok=True)` adding the path and every ancestor;
* `subprocess.run(cmd, check=True, stdout=PIPE, stderr=PIPE)` as a
  function of an environment oracle that, given the filesystem at call
  time and the argv list, reports either that the process started and
  exited (with exit code and captured streams) or that the executable
  could not be launched at all;
* Python exceptions as an `Except` error channel: a raised exception that
  no enclosing handler catches becomes an `Except.error` result.
-/

/-! ## Python string primitives, over the character list of a string -/

/-- Split a character list at every occurrence of a separator character,
keeping empty pieces, as Python str.split with an explicit separator does. -/
def chSplit (sep : Char) : List Char → List (List Char)
  | [] => [[]]
  | c :: cs =>
    if c = sep then [] :: chSplit sep cs
    else
      match chSplit sep cs with
      | [] => [[c]]
      | l :: ls => (c :: l) :: ls

/-- Python str.split(sep) for a one-character separator. -/
def pySplit (s : String) (sep : Char) : List String :=
  (chSplit sep s.data).map String.mk

/-- Whether the first character list is an initial segment of the second. -/
def chIsPre : List Char → List Char → Bool
  | [], _ => true
  | _ :: _, [] => false
  | a :: as, b :: bs => if a = b then chIsPre as bs else false

/-- Python s.startswith(pre). -/
def pyStartsWith (s pre : String) : Bool := chIsPre pre.data s.data

/-- Python s.endswith(suffix). -/
def pyEndsWith (s sfx : String) : Bool := chIsPre sfx.data.reverse s.data.reverse

/-- Python s.rstrip('/'): remove every trailing '/' character. -/
def rstripSlash (s : String) : String :=
  String.mk (s.data.reverse.dropWhile (fun c => c == '/')).reverse

/-- Python s[n:] by characters. -/
def pyDropChars (s : String) (n : Nat) : String := String.mk (s.data.drop n)

/-- os.path.join(a, b) on a POSIX host: an absolute second component wins,
otherwise the components are joined with exactly one '/' between them. -/
def osPathJoin (a b : String) : String :=
  if pyStartsWith b "/" then b
  else if a = "" then b
  else if pyEndsWith a "/" then a ++ b
  else a ++ "/" ++ b

/-! ## Host filesystem and the subprocess interface -/

/-- The host filesystem, abstracted to which directory paths exist. -/
def FS : Type := String → Bool

/-- Whether q is a proper ancestor directory of the path p, that is, q
followed by '/' is an initial segment of p. -/
def isDirAncestor (q p : String) : Bool := chIsPre (q.data ++ ['/']) p.data

/-- os.makedirs(p, exist_ok=True): afterwards p and every ancestor
directory of p exist, every other path is unchanged, and no error is
raised whether or not p already existed. -/
def makedirs (fs : FS) (p : String) : FS :=
  fun q => fs q || decide (q = p) || isDirAncestor q p

/-- What happened when the container engine subprocess was started:
either the process ran and exited, yielding an exit code and the captured
standard output and standard error, or the executable could not be
launched at all (not found, permission denied). -/
inductive SubprocessOutcome where
  | launched (returncode : Int) (stdout stderr : String)
  | launchFailure (msg : String)
deriving DecidableEq

/-- Python exception values raised by the embedded code. -/
inductive PyExc where
  | calledProcessError (returncode : Int) (stdout stderr : String)
  | osError (msg : String)
  | processorExecuteError (userMsg : String)
deriving DecidableEq

/-- The ambient system: the hex digest of the random bytes os.urandom(5)
supplies for this invocation, and the behavior of the container engine as
a function of the filesystem at call time and the argv list. -/
structure SysEnv where
  urandomHex : String
  subproc : FS → List String → SubprocessOutcome

/-- subprocess.run(cmd, check=True, stdout=PIPE, stderr=PIPE): on exit
code 0 the completed process is returned; a non-zero exit raises
CalledProcessError carrying the exit code and both captured streams; a
process that could not be launched raises OSError. -/
def subprocessRunCheck (o : SubprocessOutcome) : Except PyExc (Int × String × String) :=
  match o with
  | .launched rc out err =>
    if rc = 0 then .ok (rc, out, err) else .error (.calledProcessError rc out err)
  | .launchFailure m => .error (.osError m)

/-! ## The stderr-scanning loop shared by the older processors -/

/-- The stderr scan of clean_catchment_geometry.py lines 50-55, repeated
verbatim in combine_eurostat_data.py lines 73-78 and the other older
processors: err_msg starts as the generic failure message and is
overwritten by every line of stderr that starts with "Error", so the last
such line is the one reported. -/
def err_msg_for_failed_run (stderr : String) : String :=
  (pySplit stderr '\n').foldl
    (fun err_msg line =>
      if pyStartsWith line "Error" then "Running docker container failed: " ++ line
      else err_msg)
    "Running docker container failed."

/-- The extraction the specification describes, written from the spec's
words for comparison with err_msg_for_failed_run: scan standard error
line by line and report the FIRST line beginning with the marker "Error",
lines after the first matching line not affecting the result. -/
def spec_err_msg_first_line (stderr : String) : String :=
  match (pySplit stderr '\n').find? (fun line => pyStartsWith line "Error") with
  | none => "Running docker container failed."
  | some line => "Running docker container failed: " ++ line

/-- One entry of the response_object payload an execute method returns on
success: the metadata title and description and the download link. -/
structure OutputDesc where
  title : String
  description : String
  href : String
deriving DecidableEq

/-! ## clean_catchment_geometry.py -/

namespace CleanCatchmentGeometry

/-- The argv list assembled at clean_catchment_geometry.py lines 89-96.
The local constants of the source are folded in: image_name =
"aquainfra-elbe-usecase-image", container_out = "/out", script =
"clean_catchment_geometry.R". -/
def docker_command (container_name local_out in_inputFile_gpkg downloadfilename : String) :
    List String :=
  ["sudo", "docker", "run", "--rm", "--name", container_name,
   "-v", local_out ++ ":/out",
   "-e", "R_SCRIPT=clean_catchment_geometry.R",
   "aquainfra-elbe-usecase-image",
   in_inputFile_gpkg,
   "/out/" ++ downloadfilename]

/-- run_docker_container of clean_catchment_geometry.py lines 73-106:
container_name is the fixed literal prefix plus the os.urandom(5).hex()
suffix, local_out = os.path.join(download_dir, "out") is created with
os.makedirs(..., exist_ok=True) before the engine is invoked, and the
try/except around subprocess.run(check=True) returns the
(returncode, stdout, stderr) triple both on exit 0 and - through the
CalledProcessError handler - on a non-zero exit, while any other
exception (such as the OSError of a failed launch) propagates. -/
def run_docker_container (env : SysEnv) (fs : FS)
    (in_inputFile_gpkg download_dir downloadfilename : String) :
    FS × Except PyExc (Int × String × String) :=
  (makedirs fs (osPathJoin download_dir "out"),
   match subprocessRunCheck
       (env.subproc (makedirs fs (osPathJoin download_dir "out"))
         (docker_command ("aquainfra-elbe-usecase-image_" ++ env.urandomHex)
           (osPathJoin download_dir "out") in_inputFile_gpkg downloadfilename)) with
   | Except.ok (rc, stdout, stderr) => Except.ok (rc, stdout, stderr)
   | Except.error (PyExc.calledProcessError rc stdout stderr) => Except.ok (rc, stdout, stderr)
   | Except.error e => Except.error e)

end CleanCatchmentGeometry

/-! ## process_interpolate_subbasins.py -/

namespace ProcessInterpolateSubbasins

/-- The argv list assembled at process_interpolate_subbasins.py lines
96-104, with the source's local constants folded in as for
clean_catchment_geometry. -/
def docker_command (container_name local_out in_inputFile1_gpkg in_inputFile2_gpkg
    downloadfilename : String) : List String :=
  ["sudo", "docker", "run", "--rm", "--name", container_name,
   "-v", local_out ++ ":/out",
   "-e", "R_SCRIPT=process_interpolate_subbasins.R",
   "aquainfra-elbe-usecase-image",
   in_inputFile1_gpkg,
   in_inputFile2_gpkg,
   "/out/" ++ downloadfilename]

/-- run_docker_container of process_interpolate_subbasins.py lines
79-114, identical in structure to the clean_catchment_geometry variant
but forwarding two input files. -/
def run_docker_container (env : SysEnv) (fs : FS)
    (in_inputFile1_gpkg in_inputFile2_gpkg download_dir downloadfilename : String) :
    FS × Except PyExc (Int × String × String) :=
  (makedirs fs (osPathJoin download_dir "out"),
   match subprocessRunCheck
       (env.subproc (makedirs fs (osPathJoin download_dir "out"))
         (docker_command ("aquainfra-elbe-usecase-image_" ++ env.urandomHex)
           (osPathJoin download_dir "out") in_inputFile1_gpkg in_inputFile2_gpkg
           downloadfilename)) with
   | Except.ok (rc, stdout, stderr) => Except.ok (rc, stdout, stderr)
   | Except.error (PyExc.calledProcessError rc stdout stderr) => Except.ok (rc, stdout, stderr)
   | Except.error e => Except.error e)

end ProcessInterpolateSubbasins

/-! ## combine_eurostat_data.py -/

namespace CombineEurostatData

/-- image_name.split(':')[0], combine_eurostat_data.py line 107: the part
of the image reference before the tag separator. -/
def imageNameHead (image_name : String) : String := (pySplit image_name ':').headD ""

/-- Container name generation at combine_eurostat_data.py line 107: the
image reference up to the tag separator, an underscore, and the
os.urandom(5).hex() suffix. -/
def container_name (image_name sfx : String) : String :=
  imageNameHead image_name ++ "_" ++ sfx

/-- The argv list assembled at combine_eurostat_data.py lines 114-122:
no "sudo" here, and the image reference is a parameter. The source's
container_out = "/out" and script = "combine_eurostat_data.R" are folded
in. -/
def docker_command (image_name cname local_out in_country_code in_year
    downloadfilename : String) : List String :=
  ["docker", "run", "--rm", "--name", cname,
   "-v", local_out ++ ":/out",
   "-e", "R_SCRIPT=combine_eurostat_data.R",
   image_name,
   in_country_code,
   in_year,
   "/out/" ++ downloadfilename]

/-- run_docker_container of combine_eurostat_data.py lines 98-137. This
variant performs no makedirs (execute already created the directory) and
does not modify the filesystem; it only observes it through the
subprocess. The try/except is the same as in the older processors:
the (returncode, stdout, stderr) triple is returned both on exit 0 and on
a non-zero exit, and a launch failure propagates as an exception. -/
def run_docker_container (env : SysEnv) (fs : FS)
    (image_name in_country_code in_year local_out downloadfilename : String) :
    Except PyExc (Int × String × String) :=
  match subprocessRunCheck
      (env.subproc fs
        (docker_command image_name (container_name image_name env.urandomHex)
          local_out in_country_code in_year downloadfilename)) with
  | Except.ok (rc, stdout, stderr) => Except.ok (rc, stdout, stderr)
  | Except.error (PyExc.calledProcessError rc stdout stderr) => Except.ok (rc, stdout, stderr)
  | Except.error e => Except.error e

/-- The configuration values execute reads from the JSON config file,
combine_eurostat_data.py lines 41-45. -/
structure Config where
  download_dir : String
  download_url : String
deriving DecidableEq

/-- The request payload fields execute reads via data.get, lines 53-54. -/
structure RequestData where
  country_code : Option String
  year : Option String
deriving DecidableEq

/-- The per-job host output directory of combine_eurostat_data.py line
48. -/
def output_dir (cfg : Config) (process_id my_job_id : String) : String :=
  rstripSlash cfg.download_dir ++ "/out/" ++ process_id ++ "/job_" ++ my_job_id

/-- The per-job download URL of combine_eurostat_data.py line 49. -/
def output_url (cfg : Config) (process_id my_job_id : String) : String :=
  rstripSlash cfg.download_url ++ "/out/" ++ process_id ++ "/job_" ++ my_job_id

/-- execute of combine_eurostat_data.py lines 40-95. The source calls
os.makedirs(output_dir, exist_ok=True) at line 50, BEFORE the required
inputs are checked at lines 57-60, so the post-makedirs filesystem is the
one every branch returns, the missing-parameter branches included. The
missing-country_code message at line 58 is transcribed as the source has
it: it names "inputFile_tif". The image literal of line 32 and the
download file name of line 63 are folded in. A raised
ProcessorExecuteError becomes an error result. -/
def execute (env : SysEnv) (cfg : Config) (process_id my_job_id : String)
    (meta_title meta_description : String) (data : RequestData) (fs : FS) :
    FS × Except PyExc (String × OutputDesc) :=
  match data.country_code with
  | none =>
    (makedirs fs (output_dir cfg process_id my_job_id),
     Except.error (PyExc.processorExecuteError
       "Missing parameter \"inputFile_tif\". Please provide a inputFile_tif."))
  | some in_country_code =>
    match data.year with
    | none =>
      (makedirs fs (output_dir cfg process_id my_job_id),
       Except.error (PyExc.processorExecuteError
         "Missing parameter \"year\". Please provide a year."))
    | some in_year =>
      (makedirs fs (output_dir cfg process_id my_job_id),
       match run_docker_container env (makedirs fs (output_dir cfg process_id my_job_id))
           "aquainfra-elbe-usecase-image:20251119" in_country_code in_year
           (output_dir cfg process_id my_job_id)
           ("nuts3_pop_data-" ++ my_job_id ++ ".gpkg") with
       | Except.ok (rc, _stdout, stderr) =>
         if rc ≠ 0 then
           Except.error (PyExc.processorExecuteError (err_msg_for_failed_run stderr))
         else
           Except.ok ("application/json",
             ⟨meta_title, meta_description,
               rstripSlash (output_url cfg process_id my_job_id) ++ "/"
                 ++ ("nuts3_pop_data-" ++ my_job_id ++ ".gpkg")⟩)
       | Except.error e => Except.error e)

end CombineEurostatData

/-! ## docker_utils (shared helper, modelled from the spec)

process_interpolate_lau.py imports
pygeoapi.process.aquainfra-usecase-elbe.src.ogc.docker_utils, whose
source file is not among the repository files available here. The two
definitions below are therefore modelled from the specification of the
Containerized Script Runner. -/

namespace DockerUtils

/-- Modelled from the spec: the error-message extraction of the shared
docker_utils helper, whose source is not in src/. Per the spec, standard
error is scanned line by line and the first line beginning with the
marker "Error" is used; the spec's scenario ("Error: bad input" yields
"bad input") fixes that the marker "Error: " is stripped from the
reported text; if no line matches, the extracted message is empty. -/
def extract_user_msg (stderr : String) : String :=
  match (pySplit stderr '\n').find? (fun line => pyStartsWith line "Error") with
  | none => ""
  | some line => if pyStartsWith line "Error: " then pyDropChars line 7 else line

/-- Modelled from the spec: docker_utils.run_docker_container, whose
source is not in src/. Per the spec it creates the host output directory
(and parents) first, invokes the caller-supplied engine executable with
run, auto-removal, a generated container name (image-derived prefix plus
the random hex suffix), one bind mount of the output directory onto /out,
one environment variable R_SCRIPT naming the script, the image reference
and the arguments in order, and returns (exit code, stdout, stderr,
extracted user message) as data for zero and non-zero exits alike - the
extracted message being empty on success - while a launch failure is
surfaced as an exception. -/
def run_docker_container (env : SysEnv) (fs : FS)
    (docker_executable image_name script_name output_directory : String)
    (script_args : List String) :
    FS × Except PyExc (Int × String × String × String) :=
  (makedirs fs output_directory,
   match env.subproc (makedirs fs output_directory)
       ([docker_executable, "run", "--rm", "--name",
         CombineEurostatData.imageNameHead image_name ++ "_" ++ env.urandomHex,
         "-v", output_directory ++ ":/out",
         "-e", "R_SCRIPT=" ++ script_name,
         image_name] ++ script_args) with
   | SubprocessOutcome.launched rc stdout stderr =>
     Except.ok (rc, stdout, stderr, if rc = 0 then "" else extract_user_msg stderr)
   | SubprocessOutcome.launchFailure m => Except.error (PyExc.osError m))

end DockerUtils

/-! ## process_interpolate_lau.py -/

namespace ProcessInterpolateLau

/-- The configuration values execute reads from the JSON config file,
process_interpolate_lau.py lines 35-40. -/
structure Config where
  docker_executable : String
  download_dir : String
  download_url : String
deriving DecidableEq

/-- The request payload fields execute reads via data.get, lines 48-49. -/
structure RequestData where
  inputFile1_gpkg : Option String
  inputFile2_gpkg : Option String
deriving DecidableEq

/-- The per-job host output directory of process_interpolate_lau.py line
43. -/
def output_dir (cfg : Config) (process_id my_job_id : String) : String :=
  rstripSlash cfg.download_dir ++ "/out/" ++ process_id ++ "/job_" ++ my_job_id

/-- The per-job download URL of process_interpolate_lau.py line 44. -/
def output_url (cfg : Config) (process_id my_job_id : String) : String :=
  rstripSlash cfg.download_url ++ "/out/" ++ process_id ++ "/job_" ++ my_job_id

/-- The failure branch of execute, process_interpolate_lau.py lines
79-80: an empty extracted message is replaced by the fallback
"no message" before it is interpolated into the user-facing text. -/
def failure_user_msg (user_err_msg : String) : String :=
  "Running docker container failed: "
    ++ (if user_err_msg.length = 0 then "no message" else user_err_msg)

/-- execute of process_interpolate_lau.py lines 34-96. As in
combine_eurostat_data, os.makedirs(output_dir, exist_ok=True) runs at
line 45 before the inputs are checked, so every branch returns the
post-makedirs filesystem. The image literal of line 25, the script name
of line 26 and the download file name of line 58 are folded in. The
runner is the spec-modelled docker_utils helper. -/
def execute (env : SysEnv) (cfg : Config) (process_id my_job_id : String)
    (meta_title meta_description : String) (data : RequestData) (fs : FS) :
    FS × Except PyExc (String × OutputDesc) :=
  match data.inputFile1_gpkg with
  | none =>
    (makedirs fs (output_dir cfg process_id my_job_id),
     Except.error (PyExc.processorExecuteError
       "Missing parameter \"inputFile1_gpkg\". Please provide a inputFile1_gpkg."))
  | some in_inputFile1_gpkg =>
    match data.inputFile2_gpkg with
    | none =>
      (makedirs fs (output_dir cfg process_id my_job_id),
       Except.error (PyExc.processorExecuteError
         "Missing parameter \"inputFile2_gpkg\". Please provide a inputFile2_gpkg."))
    | some in_inputFile2_gpkg =>
      match DockerUtils.run_docker_container env
          (makedirs fs (output_dir cfg process_id my_job_id))
          cfg.docker_executable "aquainfra-elbe-usecase-image:20251119"
          "process_interpolate_lau.R" (output_dir cfg process_id my_job_id)
          [in_inputFile1_gpkg, in_inputFile2_gpkg,
           output_dir cfg process_id my_job_id ++ "/"
             ++ ("lau_population_errors-" ++ my_job_id ++ ".gpkg")] with
      | (fs2, Except.ok (rc, _stdout, _stderr, user_err_msg)) =>
        if rc ≠ 0 then
          (fs2, Except.error (PyExc.processorExecuteError (failure_user_msg user_err_msg)))
        else
          (fs2, Except.ok ("application/json",
            ⟨meta_title, meta_description,
              output_url cfg process_id my_job_id ++ "/"
                ++ ("lau_population_errors-" ++ my_job_id ++ ".gpkg")⟩))
      | (fs2, Except.error e) => (fs2, Except.error e)

end ProcessInterpolateLau

/-! ## Helper lemmas -/

/-- A left fold that overwrites its accumulator at every element
satisfying p computes the image under g of the LAST such element, the
initial value when there is none. -/
theorem foldl_if_keepLast {α β : Type} (p : α → Bool) (g : α → β) :
    ∀ (l : List α) (init : β),
      l.foldl (fun acc x => if p x then g x else acc) init
        = (((l.reverse.find? p).map g).getD init) := by
  intro l
  induction l with
  | nil => intro init; rfl
  | cons x xs ih =>
    intro init
    rw [List.foldl_cons, ih, List.reverse_cons, List.find?_append]
    cases hfind : xs.reverse.find? p with
    | some y => simp [hfind]
    | none =>
      cases hx : p x <;> simp [hfind, hx, List.find?]

/-! ## Claims -/

/-- C1 (corrected), counterexample: the extraction implemented at
clean_catchment_geometry.py lines 50-55 (and its verbatim copies) is NOT
the first line of standard error beginning with "Error": on a standard
error holding two marker lines it reports the second one, so it differs
from the spec-described first-line extraction, and appending a further
marker line changes the result. -/
theorem C1_first_line_refuted :
    err_msg_for_failed_run "Error: first\nError: second"
        ≠ spec_err_msg_first_line "Error: first\nError: second"
    ∧ err_msg_for_failed_run "Error: first"
        ≠ err_msg_for_failed_run "Error: first\nError: second" := by
  exact ⟨by decide, by decide⟩

/-- C1 (corrected), amended claim: for every failed invocation the
user-facing error message of the older processors is obtained by scanning
standard error line by line with a loop that overwrites its result at
every line beginning with "Error", so it reports the LAST such line
(earlier matching lines do not affect the result), and the generic
message when no line matches. -/
theorem C1_last_error_line_wins (stderr : String) :
    err_msg_for_failed_run stderr
      = ((((pySplit stderr '\n').reverse.find? (fun line => pyStartsWith line "Error")).map
          (fun line => "Running docker container failed: " ++ line)).getD
          "Running docker container failed.") := by
  exact foldl_if_keepLast (fun line => pyStartsWith line "Error")
    (fun line => "Running docker container failed: " ++ line)
    (pySplit stderr '\n') "Running docker container failed."

/-- C2 (confirmed, against the spec-modelled docker_utils runner): when
the script exits 1 having written exactly "Error: bad input\n" to
standard error and nothing to standard output, the runner's result is
(1, "", "Error: bad input\n", "bad input"); the failure branch of
process_interpolate_lau.execute turns the extracted message "bad input"
into exactly "Running docker container failed: bad input"; and the full
execute call surfaces exactly that message to the caller's user. -/
theorem C2_failed_run_scenario :
    (DockerUtils.run_docker_container
        ⟨"0123456789", fun _ _ => SubprocessOutcome.launched 1 "" "Error: bad input\n"⟩
        (fun _ => false) "docker" "aquainfra-elbe-usecase-image:20251119"
        "process_interpolate_lau.R" "/tmp/job1"
        ["a.gpkg", "b.gpkg", "/out/result.gpkg"]).2
      = Except.ok (1, "", "Error: bad input\n", "bad input")
    ∧ ProcessInterpolateLau.failure_user_msg "bad input"
      = "Running docker container failed: bad input"
    ∧ (ProcessInterpolateLau.execute
        ⟨"0123456789", fun _ _ => SubprocessOutcome.launched 1 "" "Error: bad input\n"⟩
        ⟨"docker", "/data", "https://example.org"⟩ "process-interpolate-lau" "job1"
        "title" "description" ⟨some "a.gpkg", some "b.gpkg"⟩ (fun _ => false)).2
      = Except.error (PyExc.processorExecuteError
          "Running docker container failed: bad input") := by
  refine ⟨rfl, rfl, rfl⟩

/-- C3 (confirmed): whenever the container engine process starts and
exits - with exit code 0 or not - the runner returns the
(exit code, stdout, stderr) triple as an ordinary value and raises no
exception, in both the clean_catchment_geometry and the
combine_eurostat_data variant: the CalledProcessError of a non-zero exit
is caught and converted back into the same triple. -/
theorem C3_script_exit_returned_as_data
    (env env' : SysEnv) (fs fs' : FS)
    (a d f img cc yr lo dfn : String) (rc rc' : Int) (out err out' err' : String)
    (h : env.subproc (makedirs fs (osPathJoin d "out"))
        (CleanCatchmentGeometry.docker_command
          ("aquainfra-elbe-usecase-image_" ++ env.urandomHex) (osPathJoin d "out") a f)
        = SubprocessOutcome.launched rc out err)
    (h' : env'.subproc fs'
        (CombineEurostatData.docker_command img
          (CombineEurostatData.container_name img env'.urandomHex) lo cc yr dfn)
        = SubprocessOutcome.launched rc' out' err') :
    (CleanCatchmentGeometry.run_docker_container env fs a d f).2
        = Except.ok (rc, out, err)
    ∧ CombineEurostatData.run_docker_container env' fs' img cc yr lo dfn
        = Except.ok (rc', out', err') := by
  constructor
  · simp only [CleanCatchmentGeometry.run_docker_container, h, subprocessRunCheck]
    split_ifs <;> rfl
  · simp only [CombineEurostatData.run_docker_container, h', subprocessRunCheck]
    split_ifs <;> rfl

/-- Witness for C3 at a concrete invocation with exit code 3. -/
theorem C3_script_exit_returned_as_data_witness :
    (SysEnv.subproc ⟨"aabbccddee", fun _ _ => SubprocessOutcome.launched 3 "o" "e"⟩
        (makedirs (fun _ => false) (osPathJoin "/data" "out"))
        (CleanCatchmentGeometry.docker_command
          ("aquainfra-elbe-usecase-image_"
            ++ SysEnv.urandomHex ⟨"aabbccddee", fun _ _ => SubprocessOutcome.launched 3 "o" "e"⟩)
          (osPathJoin "/data" "out") "in.gpkg" "o.gpkg")
        = SubprocessOutcome.launched 3 "o" "e")
    ∧ (SysEnv.subproc ⟨"aabbccddee", fun _ _ => SubprocessOutcome.launched 3 "o" "e"⟩
        (fun _ => false)
        (CombineEurostatData.docker_command "img:tag"
          (CombineEurostatData.container_name "img:tag"
            (SysEnv.urandomHex ⟨"aabbccddee", fun _ _ => SubprocessOutcome.launched 3 "o" "e"⟩))
          "/data/out" "DE" "2021" "o.gpkg")
        = SubprocessOutcome.launched 3 "o" "e")
    ∧ (CleanCatchmentGeometry.run_docker_container
        ⟨"aabbccddee", fun _ _ => SubprocessOutcome.launched 3 "o" "e"⟩
        (fun _ => false) "in.gpkg" "/data" "o.gpkg").2 = Except.ok (3, "o", "e")
    ∧ CombineEurostatData.run_docker_container
        ⟨"aabbccddee", fun _ _ => SubprocessOutcome.launched 3 "o" "e"⟩
        (fun _ => false) "img:tag" "DE" "2021" "/data/out" "o.gpkg"
        = Except.ok (3, "o", "e") := by
  refine ⟨rfl, rfl, ?_, ?_⟩
  · exact (C3_script_exit_returned_as_data
      ⟨"aabbccddee", fun _ _ => SubprocessOutcome.launched 3 "o" "e"⟩
      ⟨"aabbccddee", fun _ _ => SubprocessOutcome.launched 3 "o" "e"⟩
      (fun _ => false) (fun _ => false)
      "in.gpkg" "/data" "o.gpkg" "img:tag" "DE" "2021" "/data/out" "o.gpkg"
      3 3 "o" "e" "o" "e" rfl rfl).1
  · exact (C3_script_exit_returned_as_data
      ⟨"aabbccddee", fun _ _ => SubprocessOutcome.launched 3 "o" "e"⟩
      ⟨"aabbccddee", fun _ _ => SubprocessOutcome.launched 3 "o" "e"⟩
      (fun _ => false) (fun _ => false)
      "in.gpkg" "/data" "o.gpkg" "img:tag" "DE" "2021" "/data/out" "o.gpkg"
      3 3 "o" "e" "o" "e" rfl rfl).2

/-- C4 (confirmed): when the container engine binary itself cannot be
started, the runner does not fold the failure into a returned exit-code
triple: the OSError raised by subprocess.run is not caught by the
CalledProcessError handler, so the call surfaces an exceptional result,
in both the clean_catchment_geometry and the
process_interpolate_subbasins variant. -/
theorem C4_launch_failure_is_exception
    (env env' : SysEnv) (fs fs' : FS) (a d f b1 b2 d2 f2 m m' : String)
    (h : env.subproc (makedirs fs (osPathJoin d "out"))
        (CleanCatchmentGeometry.docker_command
          ("aquainfra-elbe-usecase-image_" ++ env.urandomHex) (osPathJoin d "out") a f)
        = SubprocessOutcome.launchFailure m)
    (h' : env'.subproc (makedirs fs' (osPathJoin d2 "out"))
        (ProcessInterpolateSubbasins.docker_command
          ("aquainfra-elbe-usecase-image_" ++ env'.urandomHex) (osPathJoin d2 "out") b1 b2 f2)
        = SubprocessOutcome.launchFailure m') :
    (CleanCatchmentGeometry.run_docker_container env fs a d f).2
        = Except.error (PyExc.osError m)
    ∧ (ProcessInterpolateSubbasins.run_docker_container env' fs' b1 b2 d2 f2).2
        = Except.error (PyExc.osError m') := by
  constructor
  · simp only [CleanCatchmentGeometry.run_docker_container, h, subprocessRunCheck]
  · simp only [ProcessInterpolateSubbasins.run_docker_container, h', subprocessRunCheck]

/-- Witness for C4 at a concrete invocation whose engine binary is
missing. -/
theorem C4_launch_failure_is_exception_witness :
    (SysEnv.subproc ⟨"aabbccddee", fun _ _ => SubprocessOutcome.launchFailure "not found"⟩
        (makedirs (fun _ => false) (osPathJoin "/data" "out"))
        (CleanCatchmentGeometry.docker_command
          ("aquainfra-elbe-usecase-image_"
            ++ SysEnv.urandomHex
                ⟨"aabbccddee", fun _ _ => SubprocessOutcome.launchFailure "not found"⟩)
          (osPathJoin "/data" "out") "in.gpkg" "o.gpkg")
        = SubprocessOutcome.launchFailure "not found")
    ∧ (CleanCatchmentGeometry.run_docker_container
        ⟨"aabbccddee", fun _ _ => SubprocessOutcome.launchFailure "not found"⟩
        (fun _ => false) "in.gpkg" "/data" "o.gpkg").2
        = Except.error (PyExc.osError "not found")
    ∧ (ProcessInterpolateSubbasins.run_docker_container
        ⟨"aabbccddee", fun _ _ => SubprocessOutcome.launchFailure "not found"⟩
        (fun _ => false) "a.gpkg" "b.gpkg" "/data" "o.gpkg").2
        = Except.error (PyExc.osError "not found") := by
  refine ⟨rfl, ?_, ?_⟩
  · exact (C4_launch_failure_is_exception
      ⟨"aabbccddee", fun _ _ => SubprocessOutcome.launchFailure "not found"⟩
      ⟨"aabbccddee", fun _ _ => SubprocessOutcome.launchFailure "not found"⟩
      (fun _ => false) (fun _ => false)
      "in.gpkg" "/data" "o.gpkg" "a.gpkg" "b.gpkg" "/data" "o.gpkg"
      "not found" "not found" rfl rfl).1
  · exact (C4_launch_failure_is_exception
      ⟨"aabbccddee", fun _ _ => SubprocessOutcome.launchFailure "not found"⟩
      ⟨"aabbccddee", fun _ _ => SubprocessOutcome.launchFailure "not found"⟩
      (fun _ => false) (fun _ => false)
      "in.gpkg" "/data" "o.gpkg" "a.gpkg" "b.gpkg" "/data" "o.gpkg"
      "not found" "not found" rfl rfl).2

/-- C5 (confirmed): after any run of the clean_catchment_geometry runner
the host output directory (download_dir joined with "out") and every
ancestor directory of it exist, whatever the subprocess did (success,
script failure or launch failure), since os.makedirs(..., exist_ok=True)
runs before the engine is invoked and never errors; and after any
combine_eurostat_data execute call - the runner is invoked there or not -
the per-job output directory exists. -/
theorem C5_output_dir_exists_after_run
    (env env' : SysEnv) (fs fs' : FS) (a d f : String)
    (cfg : CombineEurostatData.Config) (pid jid t desc : String)
    (data : CombineEurostatData.RequestData) :
    (CleanCatchmentGeometry.run_docker_container env fs a d f).1 (osPathJoin d "out") = true
    ∧ (∀ q : String, isDirAncestor q (osPathJoin d "out") = true →
        (CleanCatchmentGeometry.run_docker_container env fs a d f).1 q = true)
    ∧ (CombineEurostatData.execute env' cfg pid jid t desc data fs').1
        (CombineEurostatData.output_dir cfg pid jid) = true := by
  refine ⟨?_, ?_, ?_⟩
  · simp [CleanCatchmentGeometry.run_docker_container, makedirs]
  · intro q hq
    simp [CleanCatchmentGeometry.run_docker_container, makedirs, hq]
  · rcases data with ⟨cc, yr⟩
    cases cc with
    | none => simp [CombineEurostatData.execute, makedirs]
    | some c =>
      cases yr with
      | none => simp [CombineEurostatData.execute, makedirs]
      | some y => simp [CombineEurostatData.execute, makedirs]

/-- Witness for C5 at a concrete invocation: the output directory
/data/out and its ancestor /data exist after a failing run started on an
empty filesystem, and the combine_eurostat_data job directory exists
after a successful execute. -/
theorem C5_output_dir_exists_after_run_witness :
    (CleanCatchmentGeometry.run_docker_container
        ⟨"aabbccddee", fun _ _ => SubprocessOutcome.launched 1 "" "Error: x\n"⟩
        (fun _ => false) "in.gpkg" "/data" "o.gpkg").1 (osPathJoin "/data" "out") = true
    ∧ isDirAncestor "/data" (osPathJoin "/data" "out") = true
    ∧ (CleanCatchmentGeometry.run_docker_container
        ⟨"aabbccddee", fun _ _ => SubprocessOutcome.launched 1 "" "Error: x\n"⟩
        (fun _ => false) "in.gpkg" "/data" "o.gpkg").1 "/data" = true
    ∧ (CombineEurostatData.execute
        ⟨"aabbccddee", fun _ _ => SubprocessOutcome.launched 1 "" "Error: x\n"⟩
        ⟨"/data", "https://example.org"⟩ "combine-eurostat-data" "job1" "t" "d"
        ⟨some "DE", some "2021"⟩ (fun _ => false)).1
        (CombineEurostatData.output_dir ⟨"/data", "https://example.org"⟩
          "combine-eurostat-data" "job1") = true := by
  obtain ⟨h1, h2, h3⟩ := C5_output_dir_exists_after_run
    ⟨"aabbccddee", fun _ _ => SubprocessOutcome.launched 1 "" "Error: x\n"⟩
    ⟨"aabbccddee", fun _ _ => SubprocessOutcome.launched 1 "" "Error: x\n"⟩
    (fun _ => false) (fun _ => false) "in.gpkg" "/data" "o.gpkg"
    ⟨"/data", "https://example.org"⟩ "combine-eurostat-data" "job1" "t" "d"
    ⟨some "DE", some "2021"⟩
  exact ⟨h1, by decide, h2 "/data" (by decide), h3⟩

/-- C6 (corrected), counterexample: the command line of the
clean_catchment_geometry runner does not begin with a caller-supplied
container engine executable followed by the run verb - the engine
invocation is hardcoded, and because it is the two tokens
["sudo", "docker"], the token in the position the claim reserves for the
run verb is "docker", not "run". -/
theorem C6_caller_supplied_executable_refuted :
    (CleanCatchmentGeometry.docker_command "aquainfra-elbe-usecase-image_aabbccddee"
        "/data/out" "in.gpkg" "o.gpkg")[0]? = some "sudo"
    ∧ (CleanCatchmentGeometry.docker_command "aquainfra-elbe-usecase-image_aabbccddee"
        "/data/out" "in.gpkg" "o.gpkg")[1]? = some "docker"
    ∧ some ("docker" : String) ≠ some "run" := by
  refine ⟨by decide, by decide, by decide⟩

/-- C6 (corrected), amended claim: for every invocation of the two cited
runners, the command line handed to the subprocess is a HARDCODED engine
invocation - ["sudo", "docker"] in clean_catchment_geometry, ["docker"]
(no sudo) in combine_eurostat_data; the hardcoded prefix varies from
module to module - not a caller-supplied executable, followed in this
order by the run verb with auto-removal, the generated container name,
one bind mount from the host output directory to /out, the environment
variable R_SCRIPT naming the script, the image reference, and all
supplied arguments in their original order. Stated through a
discriminating subprocess oracle: the run succeeds exactly because the
argv list it receives equals the documented one. -/
theorem C6_command_layout_fixed_engine (fs fs' : FS) (in_f dl dfn sfx : String)
    (img cc yr lo dfn' sfx' : String) :
    (CleanCatchmentGeometry.run_docker_container
        ⟨sfx, fun _ cmd =>
          if cmd = ["sudo", "docker", "run", "--rm", "--name",
              "aquainfra-elbe-usecase-image_" ++ sfx,
              "-v", osPathJoin dl "out" ++ ":/out",
              "-e", "R_SCRIPT=clean_catchment_geometry.R",
              "aquainfra-elbe-usecase-image", in_f, "/out/" ++ dfn]
          then SubprocessOutcome.launched 0 "expected-command-line" ""
          else SubprocessOutcome.launchFailure "unexpected-command-line"⟩
        fs in_f dl dfn).2 = Except.ok (0, "expected-command-line", "")
    ∧ CombineEurostatData.run_docker_container
        ⟨sfx', fun _ cmd =>
          if cmd = ["docker", "run", "--rm", "--name",
              CombineEurostatData.container_name img sfx',
              "-v", lo ++ ":/out",
              "-e", "R_SCRIPT=combine_eurostat_data.R",
              img, cc, yr, "/out/" ++ dfn']
          then SubprocessOutcome.launched 0 "expected-command-line" ""
          else SubprocessOutcome.launchFailure "unexpected-command-line"⟩
        fs' img cc yr lo dfn' = Except.ok (0, "expected-command-line", "") := by
  constructor
  · simp [CleanCatchmentGeometry.run_docker_container, CleanCatchmentGeometry.docker_command,
      subprocessRunCheck]
  · simp [CombineEurostatData.run_docker_container, CombineEurostatData.docker_command,
      subprocessRunCheck]

/-- C7 (confirmed): the generated container name is the prefix derived
from the image reference (its part before the tag separator), an
underscore, and the random hex suffix; and since os.urandom(5).hex()
suffixes all have the same length, any two invocations whose random
suffixes differ produce distinct container names, even for different
image references. -/
theorem C7_container_names_distinct (i₁ i₂ s₁ s₂ : String)
    (hlen : s₁.length = s₂.length) (hne : s₁ ≠ s₂) :
    CombineEurostatData.container_name i₁ s₁
      = CombineEurostatData.imageNameHead i₁ ++ "_" ++ s₁
    ∧ CombineEurostatData.container_name i₁ s₁
      ≠ CombineEurostatData.container_name i₂ s₂ := by
  refine ⟨rfl, fun hEq => hne ?_⟩
  have hd := congrArg String.data hEq
  simp only [CombineEurostatData.container_name, String.data_append] at hd
  have hlen' : s₁.data.length = s₂.data.length := hlen
  have h2 := (List.append_inj' hd hlen').2
  cases s₁
  cases s₂
  simp_all

/-- Witness for C7 at two concrete ten-character hex suffixes. -/
theorem C7_container_names_distinct_witness :
    ("0123456789" : String).length = ("badcfe0123" : String).length
    ∧ ("0123456789" : String) ≠ "badcfe0123"
    ∧ CombineEurostatData.container_name "aquainfra-elbe-usecase-image:20251119" "0123456789"
      ≠ CombineEurostatData.container_name "aquainfra-elbe-usecase-image:20251119"
          "badcfe0123" := by
  refine ⟨by decide, by decide, ?_⟩
  exact (C7_container_names_distinct "aquainfra-elbe-usecase-image:20251119"
    "aquainfra-elbe-usecase-image:20251119" "0123456789" "badcfe0123"
    (by decide) (by decide)).2

/-- C8 (code_bug), the code evaluated at the failing input: a
combine_eurostat_data execute request that omits country_code (here
data = (country_code: absent, year: "2021")) is rejected before the
runner is invoked - the subprocess oracle would report a launch if it
were consulted, yet no such outcome appears - but the raised error's
message names "inputFile_tif", a field this processor does not even have,
instead of the missing field country_code (combine_eurostat_data.py line
58, contradicting the module's own curl example which documents the
inputs country_code and year). -/
theorem C8_missing_country_code_message :
    (CombineEurostatData.execute
        ⟨"aabbccddee", fun _ _ => SubprocessOutcome.launched 0 "engine was invoked" ""⟩
        ⟨"/data", "https://example.org"⟩ "combine-eurostat-data" "job1" "t" "d"
        ⟨none, some "2021"⟩ (fun _ => false)).2
      = Except.error (PyExc.processorExecuteError
          "Missing parameter \"inputFile_tif\". Please provide a inputFile_tif.")
    ∧ ("Missing parameter \"inputFile_tif\". Please provide a inputFile_tif."
        : String) ≠ "Missing parameter \"country_code\". Please provide a country_code." := by
  refine ⟨rfl, by decide⟩

/-- C9 (confirmed, extraction side against the spec-modelled
docker_utils): for a failed invocation whose standard error contains no
line beginning with "Error", the extracted message is empty; the
process_interpolate_lau caller then substitutes the fallback
"no message" in the user-facing failure message; and the older
processors' inline scan likewise falls back to the generic failure
message with no extracted line in it. -/
theorem C9_no_marker_fallback (stderr : String)
    (h : ∀ l ∈ pySplit stderr '\n', pyStartsWith l "Error" = false) :
    DockerUtils.extract_user_msg stderr = ""
    ∧ ProcessInterpolateLau.failure_user_msg (DockerUtils.extract_user_msg stderr)
        = "Running docker container failed: no message"
    ∧ err_msg_for_failed_run stderr = "Running docker container failed." := by
  have hfind : (pySplit stderr '\n').find? (fun line => pyStartsWith line "Error") = none :=
    List.find?_eq_none.mpr (fun x hx => by simp [h x hx])
  have h1 : DockerUtils.extract_user_msg stderr = "" := by
    unfold DockerUtils.extract_user_msg
    rw [hfind]
  have hfind' :
      (pySplit stderr '\n').reverse.find? (fun line => pyStartsWith line "Error") = none :=
    List.find?_eq_none.mpr (fun x hx => by simp [h x (List.mem_reverse.mp hx)])
  refine ⟨h1, by rw [h1]; rfl, ?_⟩
  have h3 : err_msg_for_failed_run stderr
      = ((((pySplit stderr '\n').reverse.find? (fun line => pyStartsWith line "Error")).map
          (fun line => "Running docker container failed: " ++ line)).getD
          "Running docker container failed.") :=
    foldl_if_keepLast (fun line => pyStartsWith line "Error")
      (fun line => "Running docker container failed: " ++ line)
      (pySplit stderr '\n') "Running docker container failed."
  rw [h3, hfind']
  rfl

/-- Witness for C9 at a standard error holding only a non-marker line. -/
theorem C9_no_marker_fallback_witness :
    (∀ l ∈ pySplit "warning: projection assumed\n" '\n', pyStartsWith l "Error" = false)
    ∧ DockerUtils.extract_user_msg "warning: projection assumed\n" = ""
    ∧ ProcessInterpolateLau.failure_user_msg
        (DockerUtils.extract_user_msg "warning: projection assumed\n")
        = "Running docker container failed: no message"
    ∧ err_msg_for_failed_run "warning: projection assumed\n"
        = "Running docker container failed." := by
  refine ⟨by decide, ?_⟩
  exact C9_no_marker_fallback "warning: projection assumed\n" (by decide)

/-- C10 (confirmed): combine_eurostat_data.execute creates the per-job
output directory before it validates the required inputs, so a request
missing country_code or year is answered with the missing-parameter error
while the output directory nonetheless exists afterwards - the error path
is not atomic. -/
theorem C10_dir_created_despite_missing_input
    (env : SysEnv) (cfg : CombineEurostatData.Config) (pid jid t desc : String)
    (data : CombineEurostatData.RequestData) (fs : FS)
    (h : data.country_code = none ∨ data.year = none) :
    (CombineEurostatData.execute env cfg pid jid t desc data fs).1
        (CombineEurostatData.output_dir cfg pid jid) = true
    ∧ ∃ m, (CombineEurostatData.execute env cfg pid jid t desc data fs).2
        = Except.error (PyExc.processorExecuteError m) := by
  rcases data with ⟨cc, yr⟩
  rcases h with h | h
  · simp only at h
    subst h
    exact ⟨by simp [CombineEurostatData.execute, makedirs], ⟨_, rfl⟩⟩
  · simp only at h
    subst h
    cases cc with
    | none => exact ⟨by simp [CombineEurostatData.execute, makedirs], ⟨_, rfl⟩⟩
    | some c => exact ⟨by simp [CombineEurostatData.execute, makedirs], ⟨_, rfl⟩⟩

/-- Witness for C10 at a concrete request that omits country_code. -/
theorem C10_dir_created_despite_missing_input_witness :
    ((⟨none, some "2021"⟩ : CombineEurostatData.RequestData).country_code = none
      ∨ (⟨none, some "2021"⟩ : CombineEurostatData.RequestData).year = none)
    ∧ (CombineEurostatData.execute
        ⟨"aabbccddee", fun _ _ => SubprocessOutcome.launched 0 "" ""⟩
        ⟨"/data", "https://example.org"⟩ "combine-eurostat-data" "job7" "t" "d"
        ⟨none, some "2021"⟩ (fun _ => false)).1
        (CombineEurostatData.output_dir ⟨"/data", "https://example.org"⟩
          "combine-eurostat-data" "job7") = true
    ∧ ∃ m, (CombineEurostatData.execute
        ⟨"aabbccddee", fun _ _ => SubprocessOutcome.launched 0 "" ""⟩
        ⟨"/data", "https://example.org"⟩ "combine-eurostat-data" "job7" "t" "d"
        ⟨none, some "2021"⟩ (fun _ => false)).2
        = Except.error (PyExc.processorExecuteError m) := by
  refine ⟨Or.inl rfl, ?_⟩
  exact C10_dir_created_despite_missing_input
    ⟨"aabbccddee", fun _ _ => SubprocessOutcome.launched 0 "" ""⟩
    ⟨"/data", "https://example.org"⟩ "combine-eurostat-data" "job7" "t" "d"
    ⟨none, some "2021"⟩ (fun _ => false) (Or.inl rfl)
